import Mathlib

/-!
# Verification of the systemd-boot generation-to-entry reconciler

This development is a shallow embedding of
`nixos/modules/system/boot/loader/systemd-boot/systemd-boot-builder.py`.

Modelling conventions:

* The mutable filesystem state touched by the script is captured in an explicit
  `FS` record which every effectful function threads.  Effectful Python
  functions become functions in the monad `M α = FS → Except Fatal α × FS`:
  an uncaught Python exception (or `sys.exit`) becomes an `.error` result, and
  the state component records the mutations performed before the failure.
* Files in the entries directory (`{BOOT_MOUNT_POINT}/loader/entries`) that
  match the naming convention `nixos[-profile]-generation-N[-specialisation-S].conf`
  are represented by their decoded identifier (`SystemIdentifier`); the encoder
  `generation_conf_filename` is also embedded at the string level.  Files that
  do not match the convention are never touched by the script (the
  `int(...)`/`ValueError` guard skips them), so they are not represented.
  The glob `nixos*-generation-[1-9]*.conf` only reaches files whose generation
  number starts with a nonzero digit, i.e. (for canonical decimal names)
  generation ≥ 1; this guard is kept in the model.
* Files in the managed artifact directory (`{BOOT_MOUNT_POINT}{NIXOS_DIR}`) are
  represented by their basenames (`FS.nixosFiles`); subdirectories by
  `FS.nixosDirs`.  The full path strings manipulated by the source are rebuilt
  exactly as the source's f-strings build them.
* External collaborators (nix-env generation listing, the bootspec synthesiser,
  `os.path.realpath` resolution of store paths, the initrd-secrets hook,
  OS errors raised while processing a generation, `syncfs`) are oracles in an
  `Env` record.  `bootctl` invocation, mountpoint checking, the ESP cleanup of
  a distinct boot partition, and the extra-files staging sync touch no state
  modelled here and are out of scope per the specification (§1, §4.6).
* Writes to stderr are collected in `FS.log`.  Message texts are abbreviated
  (punctuation trimmed) but emitted at exactly the program points where the
  source prints.
-/

/-! ## Data model -/

/-- `SystemIdentifier` (source lines 60-63): a bootable configuration,
identified by optional profile, generation number and optional
specialisation. -/
structure SystemIdentifier where
  profile : Option String
  generation : Int
  specialisation : Option String
deriving Repr, DecidableEq

/-- Vendor extension object `org.nixos.systemd-boot` of a bootspec document:
optional `sortKey`, optional `devicetree` (source lines 145-147). -/
structure SdBootExt where
  sortKey : Option String := none
  devicetree : Option String := none
deriving Repr, DecidableEq

/-- The required fields of the `org.nixos.bootspec.v1` object, exactly the
keyword arguments the `BootSpec(**...)` dataclass construction at source
line 148-153 expects (with `initrdSecrets` optional, default `None`). -/
structure V1Fields where
  init : String
  initrd : String
  kernel : String
  kernelParams : List String
  label : String
  system : String
  toplevel : String
  initrdSecrets : Option String := none
deriving Repr, DecidableEq

mutual

/-- A parsed bootspec JSON document as far as `bootspec_from_json`
(source lines 142-153) inspects it: the three top-level keys, each possibly
absent.  The `org.nixos.specialisation.v1` value is a mapping from
specialisation name to a document of the same shape (recursive);
Python dict order is kept as `BootJsonMap` order. -/
inductive BootJson where
  | mk (bootspecV1 : Option V1Fields)
       (specialisationV1 : Option BootJsonMap)
       (systemdBoot : Option SdBootExt)

/-- Association list from specialisation name to nested document. -/
inductive BootJsonMap where
  | nil
  | cons (name : String) (doc : BootJson) (rest : BootJsonMap)

end

/-- The `BootSpec` dataclass (source lines 38-50). -/
inductive BootSpec where
  | mk (init initrd kernel : String) (kernelParams : List String)
       (label system toplevel : String)
       (specialisations : List (String × BootSpec))
       (sortKey : String) (devicetree : Option String)
       (initrdSecrets : Option String)

namespace BootSpec

def init : BootSpec → String | .mk i _ _ _ _ _ _ _ _ _ _ => i
def initrd : BootSpec → String | .mk _ i _ _ _ _ _ _ _ _ _ => i
def kernel : BootSpec → String | .mk _ _ k _ _ _ _ _ _ _ _ => k
def kernelParams : BootSpec → List String | .mk _ _ _ k _ _ _ _ _ _ _ => k
def label : BootSpec → String | .mk _ _ _ _ l _ _ _ _ _ _ => l
def system : BootSpec → String | .mk _ _ _ _ _ s _ _ _ _ _ => s
def toplevel : BootSpec → String | .mk _ _ _ _ _ _ t _ _ _ _ => t
def specialisations : BootSpec → List (String × BootSpec)
  | .mk _ _ _ _ _ _ _ s _ _ _ => s
def sortKey : BootSpec → String | .mk _ _ _ _ _ _ _ _ k _ _ => k
def devicetree : BootSpec → Option String | .mk _ _ _ _ _ _ _ _ _ d _ => d
def initrdSecrets : BootSpec → Option String | .mk _ _ _ _ _ _ _ _ _ _ s => s

end BootSpec

/-- Python exceptions / exits that can terminate the script, as observed at
the process boundary (all of them produce a non-zero exit status). -/
inductive Fatal where
  | sysExit (code : Int)
  | osError (errno : Int)
  | keyError
  | valueError
  | indexError
deriving Repr, DecidableEq

/-- The filesystem state the script mutates, restricted to what the source
reads or writes on the boot mount:
`entries` is the set of naming-convention files in the entries directory
(decoded); `nixosFiles`/`nixosDirs` are the basenames of files/directories in
the managed artifact directory; `loaderConf` is the content of
`loader/loader.conf` (if the file exists); `log` is stderr. -/
structure FS where
  entries : List SystemIdentifier
  nixosFiles : List String
  nixosDirs : List String
  loaderConf : Option String
  log : List String
deriving Repr, DecidableEq

/-- State-and-error monad for the script: the state survives a raised
exception (mutations made before the raise are kept). -/
def M (α : Type) : Type := FS → Except Fatal α × FS

instance : Monad M where
  pure a := fun s => (.ok a, s)
  bind x f := fun s =>
    match x s with
    | (.ok a, s') => f a s'
    | (.error e, s') => (.error e, s')

/-- Raise a Python exception. -/
def throwF {α : Type} (e : Fatal) : M α := fun s => (.error e, s)

/-- Mutate the filesystem state. -/
def modifyFS (f : FS → FS) : M Unit := fun s => (.ok (), f s)

/-- Print a line to stderr. -/
def logLine (msg : String) : M Unit :=
  modifyFS fun s => { s with log := s.log ++ [msg] }

/-- Lift a pure `Except` computation (no state effect). -/
def liftE {α : Type} (x : Except Fatal α) : M α := fun s => (x, s)

/-! ## Build-time configuration and external environment -/

/-- The `@...@` placeholders substituted into the script at package build time
(source lines 19-36), as far as the modelled code reads them. -/
structure Config where
  bootMountPoint : String
  efiSysMountPoint : String
  nixosDir : String
  timeout : String
  editor : Bool
  rebootForBitlocker : Bool
  consoleMode : String
  configurationLimit : Int
  distroName : String

/-- What `get_bootspec` finds for a generation (source lines 117-140): either
a cached `boot.json` whose `json.load` parses (`cached (.ok j)`) or raises
`ValueError` (`cached (.error ())`), or no cached file, in which case the
external synthesiser produces a document. -/
inductive DescriptorSource where
  | cached (parsed : Except Unit BootJson)
  | synthesized (doc : BootJson)

/-- Oracles for the external collaborators and OS behaviour. -/
structure Env where
  /-- Per (profile, generation): what `boot.json` reading / synthesis yields. -/
  descriptor : Option String → Int → DescriptorSource
  /-- `os.path.realpath` decomposition used by `copy_from_file`
  (source lines 157-159): maps a store path to its first component relative
  to the store directory and its basename. -/
  resolveStore : String → String × String
  /-- Whether `run([hook, initrdPath])` exits non-zero (source line 181). -/
  hookFails : String → String → Bool
  /-- An `OSError` (errno) raised while processing a generation inside the
  `try` of source lines 368-383, if any; modelled as raised before the
  body's writes. -/
  osErrno : Option String → Int → Option Int
  /-- `get_profiles()` result (source lines 274-280). -/
  profilesList : List String
  /-- stdout of `nix-env --list-generations` per profile (source lines 218-227). -/
  genStdout : Option String → String
  /-- Contents of `/etc/machine-id` first line, or `None` (lines 283-289). -/
  machineId : Option String
  /-- Whether `NIXOS_INSTALL_BOOTLOADER=1` (source line 307). -/
  installMode : Bool

/-! ## Pure string helpers from the source -/

/-- Python truthiness for an optional string: `None` and `""` are falsy. -/
def pyTruthy : Option String → Option String
  | some s => if s = "" then none else some s
  | none => none

/-- `generation_dir` (source lines 71-75). -/
def generation_dir (profile : Option String) (generation : Int) : String :=
  match pyTruthy profile with
  | some p => "/nix/var/nix/profiles/system-profiles/" ++ p ++ "-" ++ toString generation ++ "-link"
  | none => "/nix/var/nix/profiles/system-" ++ toString generation ++ "-link"

/-- `system_dir` (source lines 77-82). -/
def system_dir (profile : Option String) (generation : Int)
    (specialisation : Option String) : String :=
  match pyTruthy specialisation with
  | some s => generation_dir profile generation ++ "/specialisation/" ++ s
  | none => generation_dir profile generation

/-- `generation_conf_filename` (source lines 92-100): join the truthy pieces
with `-` and append `.conf`. -/
def generation_conf_filename (profile : Option String) (generation : Int)
    (specialisation : Option String) : String :=
  String.intercalate "-"
    (List.filterMap id
      [some "nixos",
       pyTruthy profile,
       some "generation",
       some (toString generation),
       (pyTruthy specialisation).map (fun s => "specialisation-" ++ s)])
    ++ ".conf"

/-- The text `write_loader_conf` renders (source lines 103-113). -/
def loader_conf_content (cfg : Config) (profile : Option String)
    (generation : Int) (specialisation : Option String) : String :=
  "timeout " ++ cfg.timeout ++ "\n"
    ++ "default " ++ generation_conf_filename profile generation specialisation ++ "\n"
    ++ (if !cfg.editor then "editor 0\n" else "")
    ++ (if cfg.rebootForBitlocker then "reboot-for-bitlocker yes\n" else "")
    ++ "console-mode " ++ cfg.consoleMode ++ "\n"

/-- Split a character list into lines at newline characters (the line
structure of a rendered configuration file). -/
def splitNl : List Char → List (List Char)
  | [] => [[]]
  | c :: rest =>
      if c = '\n' then [] :: splitNl rest
      else
        match splitNl rest with
        | l :: ls => (c :: l) :: ls
        | [] => [[c]]

/-- Extract the `default` field from a loader configuration text: the
remainder of the first line starting with `default `. -/
def loaderDefaultField (content : String) : Option String :=
  ((splitNl content.data).filterMap
    (fun l => if l.take 8 = "default ".data then some (String.mk (l.drop 8)) else none)).head?

/-- `os.path.dirname` (posixpath semantics): everything up to the last `/`,
with trailing slashes stripped unless the head is all slashes. -/
def pyDirname (p : String) : String :=
  let cs := p.data
  let afterLast := (cs.reverse.takeWhile (fun c => c ≠ '/')).length
  if afterLast = cs.length then ""
  else
    let head := cs.take (cs.length - afterLast)
    if head.all (fun c => c = '/') then String.mk head
    else String.mk ((head.reverse.dropWhile (fun c => c = '/')).reverse)

/-- Python list slice `l[-n:]` for an arbitrary integer `n`
(used at source line 240 as `configurations[-configurationLimit:]`):
for `n > 0` the last `n` elements; `l[-0:]` is `l[0:] = l`; for negative
`n`, `l[-n:]` drops the first `-n` elements. -/
def pySliceLast {α : Type} (n : Int) (l : List α) : List α :=
  if 0 < n then l.drop (l.length - min n.toNat l.length)
  else l.drop (min (-n).toNat l.length)

/-- Insert a file into a directory listing if not present: models both
`copy_if_not_exists` (source lines 66-68) and the effect of
write-then-`os.rename` on the set of files of a directory. -/
def insertOnce {α : Type} [DecidableEq α] (a : α) (l : List α) : List α :=
  if a ∈ l then l else l ++ [a]

/-! ## Boot specification resolution -/

mutual

/-- `bootspec_from_json` (source lines 142-153).  Order of failure matters:
line 143 indexes `org.nixos.specialisation.v1` unconditionally (a missing key
raises `KeyError` before anything else, regardless of the other keys), then
every specialisation value is resolved recursively, the vendor extension is
read with `.get` defaults (`sortKey` defaults to `"nixos"`, `devicetree` to
`None`), and finally line 149 indexes `org.nixos.bootspec.v1`. -/
def bootspec_from_json : BootJson → Except Fatal BootSpec
  | .mk _ none _ => Except.error Fatal.keyError
  | .mk v1 (some spList) ext => do
    let specialisations ← bootspec_list spList
    let extension := ext.getD {}
    let sortKey := extension.sortKey.getD "nixos"
    let devicetree := extension.devicetree
    match v1 with
    | none => Except.error Fatal.keyError
    | some f =>
        Except.ok (BootSpec.mk f.init f.initrd f.kernel f.kernelParams f.label
          f.system f.toplevel specialisations sortKey devicetree f.initrdSecrets)

/-- The dict comprehension `{k: bootspec_from_json(v) for k, v in ...}` at
source line 144. -/
def bootspec_list : BootJsonMap → Except Fatal (List (String × BootSpec))
  | .nil => Except.ok []
  | .cons k v rest => do
    let b ← bootspec_from_json v
    let more ← bootspec_list rest
    Except.ok ((k, b) :: more)

end

/-- Outcome of `get_bootspec` (source lines 117-140) as a pure value:
a cached descriptor that fails `json.load` exits with status 1; otherwise the
parsed (or synthesised) document goes through `bootspec_from_json`. -/
def resolve_pure (env : Env) (profile : Option String) (generation : Int) :
    Except Fatal BootSpec :=
  match env.descriptor profile generation with
  | .cached (.error _) => .error (.sysExit 1)
  | .cached (.ok j) => bootspec_from_json j
  | .synthesized j => bootspec_from_json j

/-- The stderr diagnostic of source line 126. -/
def malformed_msg (profile : Option String) (generation : Int) : String :=
  "error: Malformed Json, in " ++ system_dir profile generation none ++ "/boot.json"

/-- `get_bootspec` (source lines 117-140): same as `resolve_pure` but the
malformed-cache case first prints the diagnostic of line 126 to stderr. -/
def get_bootspec (env : Env) (profile : Option String) (generation : Int) :
    M BootSpec := fun s =>
  match env.descriptor profile generation with
  | .cached (.error _) =>
      (.error (.sysExit 1), { s with log := s.log ++ [malformed_msg profile generation] })
  | .cached (.ok j) => (bootspec_from_json j, s)
  | .synthesized j => (bootspec_from_json j, s)

/-! ## Store-to-ESP materialisation -/

/-- The basename of the destination that `copy_from_file` (source lines
156-163) computes for a store file with store-relative first component
`storeSubdir` and basename `suffix`: `{suffix}.efi` when the file sits
directly in a store root entry of the same name, else
`{storeSubdir}-{suffix}.efi`. -/
def copyDestName (storeSubdir suffix : String) : String :=
  if suffix = storeSubdir then suffix ++ ".efi"
  else storeSubdir ++ "-" ++ suffix ++ ".efi"

/-- `copy_from_file` (source lines 156-163).  Returns
`efi_file_path = f"{NIXOS_DIR}/{...}.efi"` and, when not a dry run, copies the
store file to `f"{BOOT_MOUNT_POINT}{efi_file_path}"` only if absent
(`copy_if_not_exists`), i.e. inserts the basename into the artifact
directory. -/
def copy_from_file (cfg : Config) (env : Env) (file : String)
    (dry_run : Bool) : M String := fun s =>
  let sub := (env.resolveStore file).1
  let suffix := (env.resolveStore file).2
  let destName := copyDestName sub suffix
  (.ok (cfg.nixosDir ++ "/" ++ destName),
   if dry_run then s
   else { s with nixosFiles := insertOnce destName s.nixosFiles })

/-! ## Entry writing -/

/-- The specialisation lookup at source lines 168-169
(`bootspec = bootspec.specialisations[specialisation]`; Python raises
`KeyError` when absent). -/
def resolve_spec (bootspec : BootSpec) : Option String → Option BootSpec
  | some s => bootspec.specialisations.lookup s
  | none => some bootspec

/-- `write_entry` (source lines 166-214).  Materialises kernel, initrd and
(optionally) devicetree, runs the initrd-secrets hook if declared — a hook
failure exits with status 1 when `current`, otherwise only warns — and then
writes the entry file via temp-file + fsync + rename, modelled as atomic
insertion of the decoded identifier into the entries directory. -/
def write_entry (cfg : Config) (env : Env) (profile : Option String)
    (generation : Int) (specialisation : Option String)
    (machine_id : Option String) (bootspec : BootSpec) (current : Bool) :
    M Unit := do
  let bs ← match resolve_spec bootspec specialisation with
    | some b => (pure b : M BootSpec)
    | none => throwF .keyError
  let _kernel ← copy_from_file cfg env bs.kernel false
  let initrd ← copy_from_file cfg env bs.initrd false
  let _devicetree ← match bs.devicetree with
    | some dt => do
        let p ← copy_from_file cfg env dt false
        pure (some p)
    | none => pure (none : Option String)
  match bs.initrdSecrets with
  | some hook =>
      if env.hookFails hook (cfg.bootMountPoint ++ initrd) then
        if current then do
          logLine "failed to create initrd secrets"
          throwF (.sysExit 1)
        else do
          logLine ("warning: failed to create initrd secrets for Configuration "
            ++ toString generation ++ ", an older generation")
          logLine "note: this is normal after having removed or renamed a file in boot.initrd.secrets"
      else pure ()
  | none => pure ()
  modifyFS fun st =>
    { st with entries :=
        insertOnce (SystemIdentifier.mk profile generation specialisation) st.entries }

/-- `write_loader_conf` (source lines 103-114): render the loader
configuration and replace `loader.conf` wholesale via temp file + fsync +
rename. -/
def write_loader_conf (cfg : Config) (profile : Option String)
    (generation : Int) (specialisation : Option String) : M Unit :=
  modifyFS fun s =>
    { s with loaderConf := some (loader_conf_content cfg profile generation specialisation) }

/-! ## Generation enumeration -/

/-- Decimal digit accumulation for `py_int`. -/
def py_digits_val : Nat → List Char → Option Nat
  | acc, [] => some acc
  | acc, c :: r =>
      if c.isDigit then py_digits_val (10 * acc + (c.toNat - 48)) r else none

/-- Python `int()` on a token: optional sign followed by decimal digits
(underscore separators and surrounding whitespace, which `int()` also
accepts, do not occur in the tokens parsed here). `none` models a raised
`ValueError`. -/
def py_int (cs : List Char) : Option Int :=
  match cs with
  | [] => none
  | c :: rest =>
      if c = '-' then
        if rest = [] then none else (py_digits_val 0 rest).map (fun n => -(n : Int))
      else if c = '+' then
        if rest = [] then none else (py_digits_val 0 rest).map (fun n => (n : Int))
      else (py_digits_val 0 (c :: rest)).map (fun n => (n : Int))

/-- `line.split()[0]`: the first whitespace-delimited token of a line, or
`none` (a raised `IndexError`) when the line has no token. -/
def py_first_token (cs : List Char) : Option (List Char) :=
  match (cs.dropWhile Char.isWhitespace).takeWhile (fun c => !c.isWhitespace) with
  | [] => none
  | t => some t

/-- Parsing of the `nix-env --list-generations` output (source lines
228-239): split on newlines, `pop()` the trailing element, and take
`int(line.split()[0])` of every remaining line (an empty line raises
`IndexError`, a non-numeric first token `ValueError`). -/
def parse_generation_lines (stdout : String) : Except Fatal (List Int) :=
  ((splitNl stdout.data).dropLast).mapM fun line =>
    match py_first_token line with
    | none => .error .indexError
    | some tok =>
        match py_int tok with
        | none => .error .valueError
        | some n => .ok n

/-- `get_generations` (source lines 217-240): the parsed generation numbers
of a profile, wrapped as identifiers with no specialisation, truncated by the
Python slice `[-configurationLimit:]`. -/
def get_generations (cfg : Config) (env : Env) (profile : Option String) :
    Except Fatal (List SystemIdentifier) := do
  let nums ← parse_generation_lines (env.genStdout profile)
  .ok (pySliceLast cfg.configurationLimit
    (nums.map fun n => SystemIdentifier.mk profile n none))

/-- The working-set accumulation over named profiles (source lines 363-364). -/
def working_set_profiles (cfg : Config) (env : Env) :
    List String → Except Fatal (List SystemIdentifier)
  | [] => .ok []
  | p :: rest => do
    let g ← get_generations cfg env (some p)
    let more ← working_set_profiles cfg env rest
    .ok (g ++ more)

/-- The full working set (source lines 362-364): default profile first, then
every named profile. -/
def working_set (cfg : Config) (env : Env) : Except Fatal (List SystemIdentifier) := do
  let base ← get_generations cfg env none
  let more ← working_set_profiles cfg env env.profilesList
  .ok (base ++ more)

/-! ## Stale-set removal -/

/-- The `known_paths` accumulation of `remove_old_entries` (source lines
246-250): resolve every working-set generation's bootspec and record the
dry-run materialisation paths of its kernel and initrd (and of nothing
else). -/
def collect_known_paths (cfg : Config) (env : Env) :
    List SystemIdentifier → M (List String)
  | [] => pure []
  | gen :: rest => do
    let bootspec ← get_bootspec env gen.profile gen.generation
    let k ← copy_from_file cfg env bootspec.kernel true
    let i ← copy_from_file cfg env bootspec.initrd true
    let more ← collect_known_paths cfg env rest
    pure (k :: i :: more)

/-- `remove_old_entries` (source lines 243-264).  First all bootspecs are
resolved (any failure aborts before any deletion).  Then every entry file
reached by the glob `nixos*-generation-[1-9]*.conf` (i.e. generation ≥ 1)
whose decoded `(profile, generation, None)` is not in the working set is
unlinked — the decoded specialisation is NOT part of the membership test
(line 260).  Then every non-directory file in the artifact directory whose
glob path `f"{BOOT_MOUNT_POINT}/{NIXOS_DIR}/*"` is not in `known_paths` is
unlinked; note the glob paths carry the `BOOT_MOUNT_POINT ++ "/"` prefix
while `known_paths` elements start with `NIXOS_DIR`. -/
def remove_old_entries (cfg : Config) (env : Env)
    (gens : List SystemIdentifier) : M Unit := do
  let known_paths ← collect_known_paths cfg env gens
  modifyFS fun s =>
    { s with entries := s.entries.filter fun e =>
        decide (e.generation < 1)
        || decide ((SystemIdentifier.mk e.profile e.generation none) ∈ gens) }
  modifyFS fun s =>
    { s with nixosFiles := s.nixosFiles.filter fun n =>
        decide ((cfg.bootMountPoint ++ "/" ++ cfg.nixosDir ++ "/" ++ n) ∈ known_paths) }

/-! ## The per-generation loop -/

/-- The loop `for specialisation in bootspec.specialisations.keys()` at
source lines 373-374: write one entry per first-level specialisation name,
passing the parent bootspec (which `write_entry` then resolves). -/
def write_spec_entries (cfg : Config) (env : Env) (profile : Option String)
    (generation : Int) (machine_id : Option String) (bootspec : BootSpec)
    (current : Bool) : List (String × BootSpec) → M Unit
  | [] => pure ()
  | (name, _) :: rest => do
    write_entry cfg env profile generation (some name) machine_id bootspec current
    write_spec_entries cfg env profile generation machine_id bootspec current rest

/-- The body of the per-generation `try` block (source lines 370-376):
resolve the bootspec, determine whether this generation is the new default
by comparing `os.path.dirname(bootspec.init)` with the CLI argument, write
its entry and one entry per first-level specialisation, and if default,
replace the loader configuration. -/
def process_generation (cfg : Config) (env : Env) (default_config : String)
    (machine_id : Option String) (gen : SystemIdentifier) : M Unit := do
  let bootspec ← get_bootspec env gen.profile gen.generation
  let is_default := pyDirname bootspec.init == default_config
  write_entry cfg env gen.profile gen.generation gen.specialisation machine_id
    bootspec is_default
  write_spec_entries cfg env gen.profile gen.generation machine_id bootspec
    is_default bootspec.specialisations
  if is_default then write_loader_conf cfg gen.profile gen.generation gen.specialisation
  else pure ()

/-- `errno.EINVAL` on Linux. -/
def EINVAL : Int := 22

/-- The stderr diagnostic of source lines 380-381 (the interpolated OS error
text is elided). -/
def skip_msg (gen : SystemIdentifier) : String :=
  "ignoring "
    ++ (match pyTruthy gen.profile with
        | some p => "profile " ++ p
        | none => "default profile")
    ++ " in the list of boot entries because of an error"

/-- One iteration of the generation loop with its `except OSError` handler
(source lines 368-383): an `OSError` with `errno == EINVAL` is logged and the
generation skipped; any other `OSError` propagates.  The `Env.osErrno` oracle
models an `OSError` raised by the body (before its writes). -/
def process_gen_caught (cfg : Config) (env : Env) (default_config : String)
    (machine_id : Option String) (gen : SystemIdentifier) : M Unit := fun s =>
  let attempt : Except Fatal Unit × FS :=
    match env.osErrno gen.profile gen.generation with
    | some e => (.error (.osError e), s)
    | none => process_generation cfg env default_config machine_id gen s
  match attempt with
  | (.error (.osError e), s') =>
      if e = EINVAL then
        (.ok (), { s' with log := s'.log ++ [skip_msg gen] })
      else (.error (.osError e), s')
  | r => r

/-- The full `for gen in gens` loop of source lines 368-383. -/
def process_gens (cfg : Config) (env : Env) (default_config : String)
    (machine_id : Option String) : List SystemIdentifier → M Unit
  | [] => pure ()
  | gen :: rest => do
    process_gen_caught cfg env default_config machine_id gen
    process_gens cfg env default_config machine_id rest

/-! ## Orchestration -/

/-- `install_bootloader` (source lines 282-408) restricted to the state
modelled here.  The machine-id read, the deprecation shim, the `bootctl`
install/update/version check, `cleanup_esp` (which touches only the distinct
EFI system partition) and the extra-files staging sync are external
collaborators per the spec (§1, §4.6) and touch no modelled state — except
that in fresh-install mode the existing `loader.conf` is unlinked first
(source lines 307-310). -/
def install_bootloader (cfg : Config) (env : Env) (default_config : String) :
    M Unit := do
  (if env.installMode then modifyFS fun s => { s with loaderConf := none }
   else pure ())
  let gens ← liftE (working_set cfg env)
  remove_old_entries cfg env gens
  process_gens cfg env default_config env.machineId gens

deriving instance DecidableEq for Except

/-- Result of a whole run as observed at the process boundary. -/
structure MainResult where
  result : Except Fatal Unit
  fs : FS
  syncedBoot : Bool
  syncedEsp : Bool
  syncErrors : List String
deriving DecidableEq

/-- `main` (source lines 411-432): run `install_bootloader` inside a
`try/finally` whose `finally` block always syncs the boot mount — and,
when distinct, the EFI system partition — reporting (but never raising) a
non-zero `syncfs` return code.  A pending exception from the `try` body
propagates unchanged after the `finally` block runs.  `syncRc` is the
OS-level return code of `libc.syncfs` on the opened mount point. -/
def pymain (cfg : Config) (env : Env) (syncRc : String → Int)
    (default_config : String) (fs0 : FS) : MainResult :=
  let r := install_bootloader cfg env default_config fs0
  let errs1 := if syncRc cfg.bootMountPoint ≠ 0
    then ["could not sync " ++ cfg.bootMountPoint] else []
  let errs2 :=
    if cfg.bootMountPoint ≠ cfg.efiSysMountPoint then
      (if syncRc cfg.efiSysMountPoint ≠ 0
       then ["could not sync " ++ cfg.efiSysMountPoint] else [])
    else []
  { result := r.1
    fs := r.2
    syncedBoot := true
    syncedEsp := decide (cfg.bootMountPoint ≠ cfg.efiSysMountPoint)
    syncErrors := errs1 ++ errs2 }

/-! ## Derived descriptions of the run's effect (used by the theorems) -/

/-- The entry files written for the first-level specialisations of one
generation, as a fold over the specialisation mapping. -/
def spec_entry_fold (profile : Option String) (generation : Int) :
    List (String × BootSpec) → List SystemIdentifier → List SystemIdentifier
  | [], es => es
  | kv :: rest, es =>
      spec_entry_fold profile generation rest
        (insertOnce (SystemIdentifier.mk profile generation (some kv.1)) es)

/-- The entries directory after the write loop has processed `gens`, each
generation resolving to `B profile generation`. -/
def entries_after (B : Option String → Int → BootSpec) :
    List SystemIdentifier → List SystemIdentifier → List SystemIdentifier
  | [], es => es
  | g :: rest, es =>
      entries_after B rest
        (spec_entry_fold g.profile g.generation (B g.profile g.generation).specialisations
          (insertOnce (SystemIdentifier.mk g.profile g.generation none) es))

/-- The loader configuration after the write loop has processed `gens`: the
last matching generation (if any) overwrote it. -/
def loader_after (cfg : Config) (default_config : String)
    (B : Option String → Int → BootSpec) :
    List SystemIdentifier → Option String → Option String
  | [], lc => lc
  | g :: rest, lc =>
      loader_after cfg default_config B rest
        (if pyDirname (B g.profile g.generation).init == default_config
         then some (loader_conf_content cfg g.profile g.generation none) else lc)

/-- The destination basename `copy_from_file` computes for a store file. -/
def destNameOf (env : Env) (file : String) : String :=
  copyDestName (env.resolveStore file).1 (env.resolveStore file).2

/-- The artifact directory contents after `write_entry` has materialised one
bootspec's kernel, initrd and (if present) devicetree, in that order. -/
def write_entry_files (env : Env) (bs : BootSpec) (files : List String) : List String :=
  let afterInitrd := insertOnce (destNameOf env bs.initrd)
    (insertOnce (destNameOf env bs.kernel) files)
  match bs.devicetree with
  | some dt => insertOnce (destNameOf env dt) afterInitrd
  | none => afterInitrd

/-- The artifact directory contents after the specialisation write loop. -/
def write_spec_files (env : Env) (bootspec : BootSpec) :
    List (String × BootSpec) → List String → List String
  | [], files => files
  | (name, _) :: rest, files =>
      write_spec_files env bootspec rest
        (match bootspec.specialisations.lookup name with
         | some b => write_entry_files env b files
         | none => files)

/-- The artifact directory contents after one generation is processed. -/
def process_generation_files (env : Env) (bs : BootSpec) (files : List String) :
    List String :=
  write_spec_files env bs bs.specialisations (write_entry_files env bs files)

/-- The artifact directory contents after the whole write loop. -/
def process_gens_files (env : Env) (B : Option String → Int → BootSpec) :
    List SystemIdentifier → List String → List String
  | [], files => files
  | g :: rest, files =>
      process_gens_files env B rest
        (process_generation_files env (B g.profile g.generation) files)

/-- The `known_paths` list of `remove_old_entries`, given the resolved
bootspecs. -/
def known_paths_of (cfg : Config) (env : Env) (B : Option String → Int → BootSpec) :
    List SystemIdentifier → List String
  | [] => []
  | g :: rest =>
      (cfg.nixosDir ++ "/" ++ destNameOf env (B g.profile g.generation).kernel)
        :: (cfg.nixosDir ++ "/" ++ destNameOf env (B g.profile g.generation).initrd)
        :: known_paths_of cfg env B rest

/-! ## Concrete fixtures for counterexamples and witnesses -/

/-- A representative build-time configuration (single mount, retention
limit 10). -/
def cfgC : Config :=
  { bootMountPoint := "/boot", efiSysMountPoint := "/boot", nixosDir := "/EFI/nixos",
    timeout := "5", editor := true, rebootForBitlocker := false, consoleMode := "keep",
    configurationLimit := 10, distroName := "NixOS" }

/-- `cfgC` with retention limit 0 (the build substitutes 0 when no limit is
configured). -/
def cfgLimit0 : Config := { cfgC with configurationLimit := 0 }

/-- Character-level split on a separator, the line/component structure of a
path or file. -/
def splitOnChar (sep : Char) : List Char → List (List Char)
  | [] => [[]]
  | c :: rest =>
      if c = sep then [] :: splitOnChar sep rest
      else
        match splitOnChar sep rest with
        | l :: ls => (c :: l) :: ls
        | [] => [[c]]

/-- Store-path decomposition for fixture paths of the shape
`/nix/store/SUB/BASE` (only such paths occur in the fixtures). -/
def resolveStoreC (f : String) : String × String :=
  match (splitOnChar '/' f.data).drop 3 with
  | [sub, base] => (String.mk sub, String.mk base)
  | _ => ("", "")

/-- The required bootspec fields of fixture generation `n`. -/
def v1Gen (n : Int) : V1Fields :=
  { init := "/nix/store/sys-" ++ toString n ++ "/init",
    initrd := "/nix/store/initrd-" ++ toString n ++ "/initrd",
    kernel := "/nix/store/kernel-" ++ toString n ++ "/kernel",
    kernelParams := [], label := "NixOS", system := "x86_64-linux",
    toplevel := "/nix/store/sys-" ++ toString n }

/-- Fixture descriptor document for generation `n`, no specialisations. -/
def docGen (n : Int) : BootJson := BootJson.mk (some (v1Gen n)) (some .nil) none

/-- The resolved bootspec of `docGen n`. -/
def bsGen (n : Int) : BootSpec :=
  BootSpec.mk ("/nix/store/sys-" ++ toString n ++ "/init")
    ("/nix/store/initrd-" ++ toString n ++ "/initrd")
    ("/nix/store/kernel-" ++ toString n ++ "/kernel") []
    "NixOS" "x86_64-linux" ("/nix/store/sys-" ++ toString n) [] "nixos" none none

/-- Fixture environment: one generation (number 1), no named profiles, no
hooks, no OS errors. -/
def envC : Env :=
  { descriptor := fun _ _ => .synthesized (docGen 1),
    resolveStore := resolveStoreC,
    hookFails := fun _ _ => false,
    osErrno := fun _ _ => none,
    profilesList := [],
    genStdout := fun _ => "1\n",
    machineId := none,
    installMode := false }

/-- `envC` with three generations in the store listing. -/
def envGen3 : Env := { envC with genStdout := fun _ => "1\n2\n3\n" }

/-- Two generations; generation `n` resolves from `docGen n`. -/
def envTwo : Env :=
  { envC with
    genStdout := fun _ => "1\n2\n",
    descriptor := fun _ g => .synthesized (docGen g) }

/-- Two generations; generation 2 has a cached descriptor that fails to
parse. -/
def envMal : Env :=
  { envC with
    genStdout := fun _ => "1\n2\n",
    descriptor := fun _ g =>
      if g = 2 then .cached (.error ()) else .synthesized (docGen 1) }

/-- `envC` with a failing initrd-secrets hook. -/
def envHook : Env := { envC with hookFails := fun _ _ => true }

/-- `envC` raising `EINVAL` while processing generation 1. -/
def envEinval : Env :=
  { envC with osErrno := fun _ g => if g = 1 then some 22 else none }

/-- `envC` raising a disk-error errno (5) while processing generation 1. -/
def envEio : Env :=
  { envC with osErrno := fun _ g => if g = 1 then some 5 else none }

/-- Entries directory holding one stale specialisation file of generation 1. -/
def fsA : FS :=
  { entries := [SystemIdentifier.mk none 1 (some "extra")], nixosFiles := [],
    nixosDirs := [], loaderConf := none, log := [] }

/-- Artifact directory holding exactly the materialised kernel of
generation 1 (as `copy_from_file` would have named it) and one
subdirectory. -/
def fsB : FS :=
  { entries := [], nixosFiles := ["kernel-1-kernel.efi"],
    nixosDirs := ["keep-me"], loaderConf := none, log := [] }

/-- A bootspec declaring an initrd-secrets hook and nothing optional. -/
def bsSec : BootSpec :=
  BootSpec.mk "/nix/store/sys-9/init" "/nix/store/initrd-9/initrd"
    "/nix/store/kernel-9/kernel" [] "NixOS" "x86_64-linux" "/nix/store/sys-9"
    [] "nixos" none (some "/nix/store/secrets-hook")

/-- A bootspec with a first-level specialisation `a` that itself carries a
nested specialisation `b`. -/
def bsLeaf : BootSpec :=
  BootSpec.mk "/nix/store/sys-7b/init" "/nix/store/initrd-7b/initrd"
    "/nix/store/kernel-7b/kernel" [] "NixOS" "x86_64-linux" "/nix/store/sys-7b"
    [] "nixos" none none

def bsInner : BootSpec :=
  BootSpec.mk "/nix/store/sys-7a/init" "/nix/store/initrd-7a/initrd"
    "/nix/store/kernel-7a/kernel" [] "NixOS" "x86_64-linux" "/nix/store/sys-7a"
    [("b", bsLeaf)] "nixos" none none

def bsNested : BootSpec :=
  BootSpec.mk "/nix/store/sys-7/init" "/nix/store/initrd-7/initrd"
    "/nix/store/kernel-7/kernel" [] "NixOS" "x86_64-linux" "/nix/store/sys-7"
    [("a", bsInner)] "nixos" none none

/-- A descriptor document with the required `org.nixos.bootspec.v1` key but
without the `org.nixos.specialisation.v1` key. -/
def docNoSpecKey : BootJson := BootJson.mk (some (v1Gen 1)) none none

/-- The `org.nixos.bootspec.v1` fields of the nested-specialisation fixture
documents (generation 7, specialisation `a`, nested specialisation `b`). -/
def v1Leaf : V1Fields :=
  { init := "/nix/store/sys-7b/init", initrd := "/nix/store/initrd-7b/initrd",
    kernel := "/nix/store/kernel-7b/kernel", kernelParams := [], label := "NixOS",
    system := "x86_64-linux", toplevel := "/nix/store/sys-7b" }

def v1Inner : V1Fields :=
  { init := "/nix/store/sys-7a/init", initrd := "/nix/store/initrd-7a/initrd",
    kernel := "/nix/store/kernel-7a/kernel", kernelParams := [], label := "NixOS",
    system := "x86_64-linux", toplevel := "/nix/store/sys-7a" }

def v1Nested : V1Fields :=
  { init := "/nix/store/sys-7/init", initrd := "/nix/store/initrd-7/initrd",
    kernel := "/nix/store/kernel-7/kernel", kernelParams := [], label := "NixOS",
    system := "x86_64-linux", toplevel := "/nix/store/sys-7" }

/-- A descriptor document whose specialisation `a` itself declares a
specialisation `b` (resolving to `bsNested`). -/
def docLeaf : BootJson := BootJson.mk (some v1Leaf) (some .nil) none

def docInner : BootJson :=
  BootJson.mk (some v1Inner) (some (.cons "b" docLeaf .nil)) none

def docNested : BootJson :=
  BootJson.mk (some v1Nested) (some (.cons "a" docInner .nil)) none

/-- `envC` resolving every generation from the nested document. -/
def envNested : Env :=
  { envC with descriptor := fun _ _ => .synthesized docNested }

/-! # Theorems -/

/-! ## Monad evaluation equations -/

theorem pure_run {α : Type} (a : α) (s : FS) : (pure a : M α) s = (.ok a, s) := rfl

theorem bind_run {α β : Type} (x : M α) (f : α → M β) (s : FS) :
    (x >>= f) s = match x s with
      | (.ok a, s') => f a s'
      | (.error e, s') => (.error e, s') := rfl

theorem throwF_run {α : Type} (e : Fatal) (s : FS) : (throwF e : M α) s = (.error e, s) := rfl

theorem modifyFS_run (f : FS → FS) (s : FS) : modifyFS f s = (.ok (), f s) := rfl

theorem liftE_run {α : Type} (x : Except Fatal α) (s : FS) : liftE x s = (x, s) := rfl

/-! ## Directory-listing and slicing lemmas -/

theorem mem_insertOnce {α : Type} [DecidableEq α] (x a : α) (l : List α) :
    x ∈ insertOnce a l ↔ x = a ∨ x ∈ l := by
  unfold insertOnce
  split
  · constructor
    · intro h; exact Or.inr h
    · rintro (rfl | h) <;> assumption
  · simp [or_comm]

theorem pySliceLast_subset {α : Type} (n : Int) (l : List α) :
    pySliceLast n l ⊆ l := by
  unfold pySliceLast
  split <;> exact List.drop_subset _ _

theorem pySliceLast_pos {α : Type} (n : Int) (l : List α) (h : 1 ≤ n) :
    pySliceLast n l = l.drop (l.length - min n.toNat l.length) := by
  unfold pySliceLast
  rw [if_pos (by omega)]

theorem pySliceLast_length {α : Type} (n : Int) (l : List α) (h : 1 ≤ n) :
    (pySliceLast n l).length = min n.toNat l.length := by
  rw [pySliceLast_pos n l h, List.length_drop]
  omega

theorem pySliceLast_suffix {α : Type} (n : Int) (l : List α) (h : 1 ≤ n) :
    (pySliceLast n l) <:+ l := by
  rw [pySliceLast_pos n l h]
  exact List.drop_suffix _ _

/-! ## Line-splitting lemmas for the loader configuration -/

theorem splitNl_no_nl (a : List Char) (ha : '\n' ∉ a) : splitNl a = [a] := by
  induction a with
  | nil => rfl
  | cons c rest ih =>
      unfold splitNl
      rw [if_neg (by intro h; exact ha (h ▸ List.mem_cons_self c rest))]
      rw [ih (fun h => ha (List.mem_cons_of_mem c h))]

theorem splitNl_append (a b : List Char) (ha : '\n' ∉ a) :
    splitNl (a ++ '\n' :: b) = a :: splitNl b := by
  induction a with
  | nil => simp [splitNl]
  | cons c rest ih =>
      have hc : c ≠ '\n' := fun h => ha (h ▸ List.mem_cons_self c rest)
      have hrest : '\n' ∉ rest := fun h => ha (List.mem_cons_of_mem c h)
      simp only [List.cons_append]
      conv_lhs => unfold splitNl
      rw [if_neg hc, ih hrest]

theorem splitNl_ne_nil (a : List Char) : splitNl a ≠ [] := by
  cases a with
  | nil => simp [splitNl]
  | cons c rest =>
      unfold splitNl
      split
      · simp
      · split <;> simp

theorem loaderDefaultField_content (cfg : Config) (profile : Option String)
    (generation : Int) (specialisation : Option String)
    (ht : '\n' ∉ cfg.timeout.data)
    (hf : '\n' ∉ (generation_conf_filename profile generation specialisation).data) :
    loaderDefaultField (loader_conf_content cfg profile generation specialisation)
      = some (generation_conf_filename profile generation specialisation) := by
  unfold loaderDefaultField loader_conf_content
  have hdata : ("timeout " ++ cfg.timeout ++ "\n"
      ++ "default " ++ generation_conf_filename profile generation specialisation ++ "\n"
      ++ (if !cfg.editor then "editor 0\n" else "")
      ++ (if cfg.rebootForBitlocker then "reboot-for-bitlocker yes\n" else "")
      ++ "console-mode " ++ cfg.consoleMode ++ "\n").data
      = ("timeout ".data ++ cfg.timeout.data) ++ '\n' ::
        ((("default ".data ++ (generation_conf_filename profile generation specialisation).data)
          ++ '\n' ::
          ((if !cfg.editor then "editor 0\n" else "").data
            ++ (if cfg.rebootForBitlocker then "reboot-for-bitlocker yes\n" else "").data
            ++ "console-mode ".data ++ cfg.consoleMode.data ++ '\n' :: []))) := by
    simp only [String.data_append]
    simp
  rw [hdata]
  rw [splitNl_append _ _ (by
    intro h
    rcases List.mem_append.mp h with h1 | h2
    · revert h1; decide
    · exact ht h2)]
  rw [splitNl_append _ _ (by
    intro h
    rcases List.mem_append.mp h with h1 | h2
    · revert h1; decide
    · exact hf h2)]
  rw [List.filterMap_cons]
  have h8 : ("timeout ".data ++ cfg.timeout.data).take 8 = "timeout ".data :=
    List.take_left' (by decide)
  rw [h8]
  rw [if_neg (by decide)]
  rw [List.filterMap_cons]
  have h8' : ("default ".data
      ++ (generation_conf_filename profile generation specialisation).data).take 8
      = "default ".data := List.take_left' (by decide)
  rw [h8']
  rw [if_pos rfl]
  have hdrop : ("default ".data
      ++ (generation_conf_filename profile generation specialisation).data).drop 8
      = (generation_conf_filename profile generation specialisation).data :=
    List.drop_left' (by decide)
  rw [hdrop]
  rfl

/-! ## Resolution lemmas -/

theorem get_bootspec_of_ok (env : Env) (profile : Option String) (generation : Int)
    (bs : BootSpec) (s : FS)
    (h : resolve_pure env profile generation = .ok bs) :
    get_bootspec env profile generation s = (.ok bs, s) := by
  unfold get_bootspec
  unfold resolve_pure at h
  cases hd : env.descriptor profile generation with
  | cached p =>
      cases p with
      | error u =>
          rw [hd] at h
          exact absurd (show Except.error (Fatal.sysExit 1) = Except.ok bs from h) (by simp)
      | ok j =>
          rw [hd] at h
          have h' : bootspec_from_json j = Except.ok bs := h
          show (bootspec_from_json j, s) = (Except.ok bs, s)
          rw [h']
  | synthesized j =>
      rw [hd] at h
      have h' : bootspec_from_json j = Except.ok bs := h
      show (bootspec_from_json j, s) = (Except.ok bs, s)
      rw [h']

theorem get_bootspec_malformed (env : Env) (profile : Option String)
    (generation : Int) (s : FS)
    (h : env.descriptor profile generation = .cached (.error ())) :
    get_bootspec env profile generation s
      = (.error (.sysExit 1), { s with log := s.log ++ [malformed_msg profile generation] }) := by
  unfold get_bootspec
  rw [h]

/-! ## Entry-writing lemmas -/

theorem copy_from_file_dry (cfg : Config) (env : Env) (file : String) (s : FS) :
    copy_from_file cfg env file true s
      = (.ok (cfg.nixosDir ++ "/"
          ++ copyDestName (env.resolveStore file).1 (env.resolveStore file).2), s) := rfl

theorem lookup_own {β : Type} (kv : String × β) :
    ∀ l : List (String × β), kv ∈ l → ∃ b, l.lookup kv.1 = some b := by
  intro l h
  induction l with
  | nil => cases h
  | cons hd tl ih =>
      obtain ⟨k, v⟩ := hd
      rcases List.mem_cons.mp h with heq | hmem
      · subst heq; exact ⟨v, by simp [List.lookup]⟩
      · cases hbe : (kv.1 == k) with
        | true => exact ⟨v, by simp [List.lookup, hbe]⟩
        | false =>
            obtain ⟨b, hb⟩ := ih hmem
            exact ⟨b, by simp [List.lookup, hbe, hb]⟩

theorem write_entry_ok (cfg : Config) (env : Env) (profile : Option String)
    (generation : Int) (specialisation : Option String) (machine_id : Option String)
    (bootspec bs : BootSpec) (current : Bool) (s : FS)
    (hres : resolve_spec bootspec specialisation = some bs)
    (hhook : ∀ a b, env.hookFails a b = false) :
    write_entry cfg env profile generation specialisation machine_id bootspec current s
      = (.ok (), { s with
          entries := insertOnce (SystemIdentifier.mk profile generation specialisation) s.entries,
          nixosFiles := write_entry_files env bs s.nixosFiles }) := by
  cases hdt : bs.devicetree with
  | none =>
      cases hsec : bs.initrdSecrets with
      | none =>
          simp only [write_entry, write_entry_files, destNameOf, hres, hdt, hsec, hhook,
            bind_run, pure_run, modifyFS_run, copy_from_file, Bool.false_eq_true, if_false]
      | some hook =>
          simp only [write_entry, write_entry_files, destNameOf, hres, hdt, hsec, hhook,
            bind_run, pure_run, modifyFS_run, copy_from_file, Bool.false_eq_true, if_false]
  | some dt =>
      cases hsec : bs.initrdSecrets with
      | none =>
          simp only [write_entry, write_entry_files, destNameOf, hres, hdt, hsec, hhook,
            bind_run, pure_run, modifyFS_run, copy_from_file, Bool.false_eq_true, if_false]
      | some hook =>
          simp only [write_entry, write_entry_files, destNameOf, hres, hdt, hsec, hhook,
            bind_run, pure_run, modifyFS_run, copy_from_file, Bool.false_eq_true, if_false]

theorem write_spec_entries_ok (cfg : Config) (env : Env) (profile : Option String)
    (generation : Int) (machine_id : Option String) (bootspec : BootSpec)
    (current : Bool) (hhook : ∀ a b, env.hookFails a b = false) :
    ∀ (l : List (String × BootSpec)) (s : FS),
    (∀ kv ∈ l, ∃ b, bootspec.specialisations.lookup kv.1 = some b) →
    write_spec_entries cfg env profile generation machine_id bootspec current l s
      = (.ok (), { s with
          entries := spec_entry_fold profile generation l s.entries,
          nixosFiles := write_spec_files env bootspec l s.nixosFiles }) := by
  intro l
  induction l with
  | nil => intro s hl; rfl
  | cons hd tl ih =>
      intro s hl
      obtain ⟨k, v⟩ := hd
      obtain ⟨b, hb⟩ := hl (k, v) (List.mem_cons_self _ _)
      have hres : resolve_spec bootspec (some k) = some b := hb
      have h1 := write_entry_ok cfg env profile generation (some k) machine_id bootspec b
        current s hres hhook
      simp only [write_spec_entries, bind_run, h1]
      rw [ih _ (fun kv hkv => hl kv (List.mem_cons_of_mem _ hkv))]
      simp only [write_spec_files, spec_entry_fold, hb]

theorem process_generation_ok (cfg : Config) (env : Env) (default_config : String)
    (machine_id : Option String) (p : Option String) (gn : Int) (bs : BootSpec) (s : FS)
    (hres : resolve_pure env p gn = .ok bs)
    (hhook : ∀ a b, env.hookFails a b = false) :
    process_generation cfg env default_config machine_id (SystemIdentifier.mk p gn none) s
      = (.ok (), { s with
          entries := spec_entry_fold p gn bs.specialisations
            (insertOnce (SystemIdentifier.mk p gn none) s.entries),
          nixosFiles := process_generation_files env bs s.nixosFiles,
          loaderConf := if pyDirname bs.init == default_config
            then some (loader_conf_content cfg p gn none) else s.loaderConf }) := by
  have hg := get_bootspec_of_ok env p gn bs s hres
  simp only [process_generation, bind_run, hg]
  cases hd : (pyDirname bs.init == default_config) with
  | true =>
      have h1 := write_entry_ok cfg env p gn none machine_id bs bs true s rfl hhook
      simp only [hd, h1, bind_run]
      rw [write_spec_entries_ok cfg env p gn machine_id bs true hhook bs.specialisations _
        (fun kv hkv => lookup_own kv _ hkv)]
      simp only [bind_run, write_loader_conf, modifyFS_run, if_true]
      rfl
  | false =>
      have h1 := write_entry_ok cfg env p gn none machine_id bs bs false s rfl hhook
      simp only [hd, h1, bind_run]
      rw [write_spec_entries_ok cfg env p gn machine_id bs false hhook bs.specialisations _
        (fun kv hkv => lookup_own kv _ hkv)]
      simp only [bind_run, pure_run, Bool.false_eq_true, if_false]
      rfl

theorem process_gen_caught_of_ok (cfg : Config) (env : Env) (default_config : String)
    (machine_id : Option String) (gen : SystemIdentifier) (s s' : FS)
    (hos : env.osErrno gen.profile gen.generation = none)
    (hrun : process_generation cfg env default_config machine_id gen s = (.ok (), s')) :
    process_gen_caught cfg env default_config machine_id gen s = (.ok (), s') := by
  unfold process_gen_caught
  rw [hos, hrun]

theorem process_gens_ok (cfg : Config) (env : Env) (default_config : String)
    (machine_id : Option String) (B : Option String → Int → BootSpec)
    (hhook : ∀ a b, env.hookFails a b = false) :
    ∀ (gens : List SystemIdentifier) (s : FS),
    (∀ g ∈ gens, resolve_pure env g.profile g.generation = .ok (B g.profile g.generation)) →
    (∀ g ∈ gens, g.specialisation = none) →
    (∀ g ∈ gens, env.osErrno g.profile g.generation = none) →
    process_gens cfg env default_config machine_id gens s
      = (.ok (), { s with
          entries := entries_after B gens s.entries,
          nixosFiles := process_gens_files env B gens s.nixosFiles,
          loaderConf := loader_after cfg default_config B gens s.loaderConf }) := by
  intro gens
  induction gens with
  | nil => intro s _ _ _; rfl
  | cons g rest ih =>
      intro s hres hspec hos
      obtain ⟨p, gn, sp⟩ := g
      have hsp : sp = none := hspec _ (List.mem_cons_self _ _)
      subst hsp
      have h1 := process_generation_ok cfg env default_config machine_id p gn
        (B p gn) s (hres _ (List.mem_cons_self _ _)) hhook
      have h2 := process_gen_caught_of_ok cfg env default_config machine_id
        (SystemIdentifier.mk p gn none) s _ (hos _ (List.mem_cons_self _ _)) h1
      simp only [process_gens, bind_run, h2]
      rw [ih _ (fun g hg => hres g (List.mem_cons_of_mem _ hg))
        (fun g hg => hspec g (List.mem_cons_of_mem _ hg))
        (fun g hg => hos g (List.mem_cons_of_mem _ hg))]
      simp only [entries_after, process_gens_files, loader_after, process_generation_files]

/-! ## Stale-set removal lemmas -/

theorem collect_known_paths_ok (cfg : Config) (env : Env)
    (B : Option String → Int → BootSpec) :
    ∀ (gens : List SystemIdentifier) (s : FS),
    (∀ g ∈ gens, resolve_pure env g.profile g.generation = .ok (B g.profile g.generation)) →
    collect_known_paths cfg env gens s = (.ok (known_paths_of cfg env B gens), s) := by
  intro gens
  induction gens with
  | nil => intro s _; rfl
  | cons g rest ih =>
      intro s hres
      have hg := get_bootspec_of_ok env g.profile g.generation (B g.profile g.generation) s
        (hres _ (List.mem_cons_self _ _))
      simp only [collect_known_paths, bind_run, hg, copy_from_file_dry]
      rw [ih _ (fun g' hg' => hres g' (List.mem_cons_of_mem _ hg'))]
      simp only [pure_run, known_paths_of, destNameOf]

theorem remove_old_entries_ok (cfg : Config) (env : Env)
    (B : Option String → Int → BootSpec) (gens : List SystemIdentifier) (s : FS)
    (hres : ∀ g ∈ gens, resolve_pure env g.profile g.generation = .ok (B g.profile g.generation)) :
    remove_old_entries cfg env gens s
      = (.ok (), { s with
          entries := s.entries.filter fun e =>
            decide (e.generation < 1)
            || decide ((SystemIdentifier.mk e.profile e.generation none) ∈ gens),
          nixosFiles := s.nixosFiles.filter fun n =>
            decide ((cfg.bootMountPoint ++ "/" ++ cfg.nixosDir ++ "/" ++ n)
              ∈ known_paths_of cfg env B gens) }) := by
  simp only [remove_old_entries, bind_run, collect_known_paths_ok cfg env B gens s hres,
    modifyFS_run]

theorem collect_known_paths_malformed (cfg : Config) (env : Env) :
    ∀ (pre : List SystemIdentifier) (g : SystemIdentifier)
      (post : List SystemIdentifier) (s : FS),
    (∀ g' ∈ pre, ∃ bs, resolve_pure env g'.profile g'.generation = .ok bs) →
    env.descriptor g.profile g.generation = .cached (.error ()) →
    collect_known_paths cfg env (pre ++ g :: post) s
      = (.error (.sysExit 1),
         { s with log := s.log ++ [malformed_msg g.profile g.generation] }) := by
  intro pre
  induction pre with
  | nil =>
      intro g post s _ hmal
      have hg := get_bootspec_malformed env g.profile g.generation s hmal
      simp only [List.nil_append, collect_known_paths, bind_run, hg]
  | cons g0 rest ih =>
      intro g post s hpre hmal
      obtain ⟨bs0, hbs0⟩ := hpre g0 (List.mem_cons_self _ _)
      have hg0 := get_bootspec_of_ok env g0.profile g0.generation bs0 s hbs0
      simp only [List.cons_append, collect_known_paths, bind_run, hg0, copy_from_file_dry,
        List.append_eq]
      rw [ih g post s (fun g' hg' => hpre g' (List.mem_cons_of_mem _ hg')) hmal]

theorem remove_old_entries_malformed (cfg : Config) (env : Env)
    (pre : List SystemIdentifier) (g : SystemIdentifier)
    (post : List SystemIdentifier) (s : FS)
    (hpre : ∀ g' ∈ pre, ∃ bs, resolve_pure env g'.profile g'.generation = .ok bs)
    (hmal : env.descriptor g.profile g.generation = .cached (.error ())) :
    remove_old_entries cfg env (pre ++ g :: post) s
      = (.error (.sysExit 1),
         { s with log := s.log ++ [malformed_msg g.profile g.generation] }) := by
  simp only [remove_old_entries, bind_run,
    collect_known_paths_malformed cfg env pre g post s hpre hmal]

/-! ## Working-set lemmas -/

theorem get_generations_ok_shape (cfg : Config) (env : Env) (profile : Option String)
    (l : List SystemIdentifier) (h : get_generations cfg env profile = .ok l) :
    ∀ e ∈ l, e.profile = profile ∧ e.specialisation = none := by
  unfold get_generations at h
  cases hp : parse_generation_lines (env.genStdout profile) with
  | error e =>
      rw [hp] at h
      have h2 : (Except.error e : Except Fatal (List SystemIdentifier)) = .ok l := h
      simp at h2
  | ok nums =>
      rw [hp] at h
      have h2 : (Except.ok (pySliceLast cfg.configurationLimit
          (nums.map fun n => SystemIdentifier.mk profile n none))
          : Except Fatal (List SystemIdentifier)) = .ok l := h
      have h3 := Except.ok.inj h2
      intro e he
      rw [← h3] at he
      obtain ⟨n, _, rfl⟩ := List.mem_map.mp (pySliceLast_subset _ _ he)
      exact ⟨rfl, rfl⟩

theorem working_set_profiles_shape (cfg : Config) (env : Env) :
    ∀ (ps : List String) (gens : List SystemIdentifier),
    working_set_profiles cfg env ps = .ok gens →
    ∀ g ∈ gens, g.specialisation = none := by
  intro ps
  induction ps with
  | nil =>
      intro gens h g hg
      have h2 : ([] : List SystemIdentifier) = gens := Except.ok.inj h
      rw [← h2] at hg
      cases hg
  | cons p rest ih =>
      intro gens h g hg
      cases h1 : get_generations cfg env (some p) with
      | error e =>
          rw [working_set_profiles, h1] at h
          have h2 : (Except.error e : Except Fatal (List SystemIdentifier)) = .ok gens := h
          simp at h2
      | ok g1 =>
          rw [working_set_profiles, h1] at h
          cases h2 : working_set_profiles cfg env rest with
          | error e =>
              rw [h2] at h
              have h3 : (Except.error e : Except Fatal (List SystemIdentifier)) = .ok gens := h
              simp at h3
          | ok more =>
              rw [h2] at h
              have h3 : (Except.ok (g1 ++ more)
                  : Except Fatal (List SystemIdentifier)) = .ok gens := h
              rw [← Except.ok.inj h3] at hg
              rcases List.mem_append.mp hg with hin | hin
              · exact (get_generations_ok_shape cfg env (some p) g1 h1 g hin).2
              · exact ih more h2 g hin

theorem working_set_shape (cfg : Config) (env : Env) (gens : List SystemIdentifier)
    (h : working_set cfg env = .ok gens) : ∀ g ∈ gens, g.specialisation = none := by
  intro g hg
  unfold working_set at h
  cases h1 : get_generations cfg env none with
  | error e =>
      rw [h1] at h
      have h2 : (Except.error e : Except Fatal (List SystemIdentifier)) = .ok gens := h
      simp at h2
  | ok base =>
      rw [h1] at h
      cases h2 : working_set_profiles cfg env env.profilesList with
      | error e =>
          rw [h2] at h
          have h3 : (Except.error e : Except Fatal (List SystemIdentifier)) = .ok gens := h
          simp at h3
      | ok more =>
          rw [h2] at h
          have h3 : (Except.ok (base ++ more)
              : Except Fatal (List SystemIdentifier)) = .ok gens := h
          rw [← Except.ok.inj h3] at hg
          rcases List.mem_append.mp hg with hin | hin
          · exact (get_generations_ok_shape cfg env none base h1 g hin).2
          · exact working_set_profiles_shape cfg env env.profilesList more h2 g hin

/-! ## Whole-run lemmas -/

theorem install_run_ok (cfg : Config) (env : Env) (default_config : String)
    (fs0 : FS) (gens : List SystemIdentifier) (B : Option String → Int → BootSpec)
    (hws : working_set cfg env = .ok gens)
    (hres : ∀ g ∈ gens, resolve_pure env g.profile g.generation = .ok (B g.profile g.generation))
    (hspec : ∀ g ∈ gens, g.specialisation = none)
    (hos : ∀ g ∈ gens, env.osErrno g.profile g.generation = none)
    (hhook : ∀ a b, env.hookFails a b = false) :
    install_bootloader cfg env default_config fs0
      = (.ok (), { fs0 with
          entries := entries_after B gens (fs0.entries.filter fun e =>
            decide (e.generation < 1)
            || decide ((SystemIdentifier.mk e.profile e.generation none) ∈ gens)),
          nixosFiles := process_gens_files env B gens (fs0.nixosFiles.filter fun n =>
            decide ((cfg.bootMountPoint ++ "/" ++ cfg.nixosDir ++ "/" ++ n)
              ∈ known_paths_of cfg env B gens)),
          loaderConf := loader_after cfg default_config B gens
            (if env.installMode then none else fs0.loaderConf) }) := by
  have hrm := fun s : FS => remove_old_entries_ok cfg env B gens s hres
  have hpg := fun s : FS =>
    process_gens_ok cfg env default_config env.machineId B hhook gens s hres hspec hos
  cases him : env.installMode with
  | true =>
      simp only [install_bootloader, bind_run, him, if_true, modifyFS_run, liftE_run, hws,
        hrm, hpg]
  | false =>
      simp only [install_bootloader, bind_run, him, Bool.false_eq_true, if_false,
        pure_run, liftE_run, hws, hrm, hpg]

theorem install_malformed (cfg : Config) (env : Env) (default_config : String)
    (fs0 : FS) (gens pre post : List SystemIdentifier) (g : SystemIdentifier)
    (hws : working_set cfg env = .ok gens)
    (hsplit : gens = pre ++ g :: post)
    (hpre : ∀ g' ∈ pre, ∃ bs, resolve_pure env g'.profile g'.generation = .ok bs)
    (hmal : env.descriptor g.profile g.generation = .cached (.error ())) :
    (install_bootloader cfg env default_config fs0).1 = .error (.sysExit 1)
    ∧ (install_bootloader cfg env default_config fs0).2.entries = fs0.entries
    ∧ (install_bootloader cfg env default_config fs0).2.nixosFiles = fs0.nixosFiles := by
  subst hsplit
  have hrm := fun s : FS => remove_old_entries_malformed cfg env pre g post s hpre hmal
  cases him : env.installMode with
  | true =>
      simp only [install_bootloader, bind_run, him, if_true, modifyFS_run, liftE_run, hws,
        hrm]
      exact ⟨trivial, trivial, trivial⟩
  | false =>
      simp only [install_bootloader, bind_run, him, Bool.false_eq_true, if_false,
        pure_run, liftE_run, hws, hrm]
      exact ⟨trivial, trivial, trivial⟩

/-! ## Membership characterisations -/

theorem mem_spec_entry_fold (profile : Option String) (generation : Int)
    (x : SystemIdentifier) :
    ∀ (specs : List (String × BootSpec)) (es : List SystemIdentifier),
    x ∈ spec_entry_fold profile generation specs es
      ↔ x ∈ es ∨ ∃ kv ∈ specs, x = SystemIdentifier.mk profile generation (some kv.1) := by
  intro specs
  induction specs with
  | nil => intro es; simp [spec_entry_fold]
  | cons kv rest ih =>
      intro es
      rw [spec_entry_fold, ih, mem_insertOnce]
      constructor
      · rintro ((h | h) | ⟨kv', hkv', h⟩)
        · exact Or.inr ⟨kv, List.mem_cons_self _ _, h⟩
        · exact Or.inl h
        · exact Or.inr ⟨kv', List.mem_cons_of_mem _ hkv', h⟩
      · rintro (h | ⟨kv', hkv', h⟩)
        · exact Or.inl (Or.inr h)
        · rcases List.mem_cons.mp hkv' with rfl | hm
          · exact Or.inl (Or.inl h)
          · exact Or.inr ⟨kv', hm, h⟩

theorem mem_entries_after (B : Option String → Int → BootSpec) (x : SystemIdentifier) :
    ∀ (gens : List SystemIdentifier) (es : List SystemIdentifier),
    x ∈ entries_after B gens es
      ↔ x ∈ es
        ∨ ∃ g ∈ gens,
            (x = SystemIdentifier.mk g.profile g.generation none
              ∨ ∃ kv ∈ (B g.profile g.generation).specialisations,
                  x = SystemIdentifier.mk g.profile g.generation (some kv.1)) := by
  intro gens
  induction gens with
  | nil => intro es; simp [entries_after]
  | cons g rest ih =>
      intro es
      rw [entries_after, ih, mem_spec_entry_fold, mem_insertOnce,
        List.exists_mem_cons_iff]
      constructor
      · rintro (((hA | hE) | hS) | hR)
        · exact Or.inr (Or.inl (Or.inl hA))
        · exact Or.inl hE
        · exact Or.inr (Or.inl (Or.inr hS))
        · exact Or.inr (Or.inr hR)
      · rintro (hE | ((hA | hS) | hR))
        · exact Or.inl (Or.inl (Or.inr hE))
        · exact Or.inl (Or.inl (Or.inl hA))
        · exact Or.inl (Or.inr hS)
        · exact Or.inr hR

theorem loader_after_no_match (cfg : Config) (default_config : String)
    (B : Option String → Int → BootSpec) :
    ∀ (gens : List SystemIdentifier) (lc : Option String),
    (∀ g ∈ gens, (pyDirname (B g.profile g.generation).init == default_config) = false) →
    loader_after cfg default_config B gens lc = lc := by
  intro gens
  induction gens with
  | nil => intro lc _; rfl
  | cons g rest ih =>
      intro lc h
      rw [loader_after, if_neg (by rw [h g (List.mem_cons_self _ _)]; simp)]
      exact ih lc (fun g' hg' => h g' (List.mem_cons_of_mem _ hg'))

theorem loader_after_unique (cfg : Config) (default_config : String)
    (B : Option String → Int → BootSpec) :
    ∀ (gens : List SystemIdentifier) (lc : Option String) (gstar : SystemIdentifier),
    gstar ∈ gens →
    (∀ g ∈ gens, ((pyDirname (B g.profile g.generation).init == default_config) = true ↔ g = gstar)) →
    loader_after cfg default_config B gens lc
      = some (loader_conf_content cfg gstar.profile gstar.generation none) := by
  intro gens
  induction gens with
  | nil => intro lc gstar hmem _; cases hmem
  | cons g rest ih =>
      intro lc gstar hmem huniq
      by_cases hrest : gstar ∈ rest
      · rw [loader_after]
        exact ih _ gstar hrest (fun g' hg' => huniq g' (List.mem_cons_of_mem _ hg'))
      · have hg : g = gstar := by
          rcases List.mem_cons.mp hmem with h | h
          · exact h.symm
          · exact absurd h hrest
        have hp : (pyDirname (B g.profile g.generation).init == default_config) = true :=
          (huniq g (List.mem_cons_self _ _)).2 hg
        rw [loader_after, if_pos hp]
        have hno : ∀ g' ∈ rest,
            (pyDirname (B g'.profile g'.generation).init == default_config) = false := by
          intro g' hg'
          cases hc : (pyDirname (B g'.profile g'.generation).init == default_config) with
          | false => rfl
          | true =>
              have heq := (huniq g' (List.mem_cons_of_mem _ hg')).1 hc
              exact absurd (heq ▸ hg') hrest
        rw [loader_after_no_match cfg default_config B rest _ hno, hg]

theorem mem_filter_entries (gens es : List SystemIdentifier) (x : SystemIdentifier)
    (hgen : ∀ e ∈ es, 1 ≤ e.generation) :
    x ∈ es.filter (fun e =>
        decide (e.generation < 1)
        || decide ((SystemIdentifier.mk e.profile e.generation none) ∈ gens))
      ↔ x ∈ es ∧ (SystemIdentifier.mk x.profile x.generation none) ∈ gens := by
  rw [List.mem_filter]
  simp only [Bool.or_eq_true, decide_eq_true_eq]
  constructor
  · rintro ⟨hx, hlt | hbase⟩
    · exact absurd hlt (by have := hgen x hx; omega)
    · exact ⟨hx, hbase⟩
  · rintro ⟨hx, hbase⟩
    exact ⟨hx, Or.inr hbase⟩

/-! ## Claim C1 -/

/-- **C1, counterexample.**  The claim says that after a run the entries
directory contains only entry files of working-set identifiers and of their
declared specialisations.  Concretely: the working set is the single
generation 1, whose bootspec declares no specialisations, yet a pre-existing
entry file decoding to `(none, 1, specialisation "extra")` — an identifier
that is neither in the working set nor a declared specialisation — survives
the run, because `remove_old_entries` tests only `(profile, generation,
None)` membership (source line 260). -/
theorem c1_counterexample_stale_specialisation_kept :
    working_set cfgC envC = .ok [SystemIdentifier.mk none 1 none]
    ∧ resolve_pure envC none 1 = .ok (bsGen 1)
    ∧ (bsGen 1).specialisations = []
    ∧ (install_bootloader cfgC envC "/unset" fsA).1 = .ok ()
    ∧ SystemIdentifier.mk none 1 (some "extra")
        ∈ (install_bootloader cfgC envC "/unset" fsA).2.entries
    ∧ SystemIdentifier.mk none 1 (some "extra") ∉ [SystemIdentifier.mk none 1 none] :=
  ⟨by decide, rfl, rfl, by decide, by decide, by decide⟩

/-- **C1 (amended).**  After a successful run over working set `gens`
(each generation resolving to `B profile generation`, no OS errors, no hook
failures, and all pre-existing convention entry files having generation ≥ 1),
an entry file with decoded identifier `(p, gn, sp)` is in the entries
directory iff `(p, gn, None)` is in the working set and either the file is
the generation's own entry (`sp = None`), or `sp` is a *declared*
specialisation of that generation, or the file already existed before the
run.  In particular deletion is decided by the `(profile, generation)` pair
alone: a stale specialisation file of a retained generation survives. -/
theorem c1_amended_entries_after_run (cfg : Config) (env : Env) (default_config : String)
    (fs0 : FS) (gens : List SystemIdentifier) (B : Option String → Int → BootSpec)
    (hws : working_set cfg env = .ok gens)
    (hres : ∀ g ∈ gens, resolve_pure env g.profile g.generation = .ok (B g.profile g.generation))
    (hos : ∀ g ∈ gens, env.osErrno g.profile g.generation = none)
    (hhook : ∀ a b, env.hookFails a b = false)
    (hgen : ∀ e ∈ fs0.entries, 1 ≤ e.generation) :
    (install_bootloader cfg env default_config fs0).1 = .ok ()
    ∧ ∀ (p : Option String) (gn : Int) (sp : Option String),
        SystemIdentifier.mk p gn sp ∈ (install_bootloader cfg env default_config fs0).2.entries
          ↔ (SystemIdentifier.mk p gn none ∈ gens
              ∧ (sp = none
                 ∨ (∃ kv ∈ (B p gn).specialisations, sp = some kv.1)
                 ∨ SystemIdentifier.mk p gn sp ∈ fs0.entries)) := by
  have hspec := working_set_shape cfg env gens hws
  have hrun := install_run_ok cfg env default_config fs0 gens B hws hres hspec hos hhook
  have h1 : (install_bootloader cfg env default_config fs0).1 = .ok () := by rw [hrun]
  have h2 : (install_bootloader cfg env default_config fs0).2.entries
      = entries_after B gens (fs0.entries.filter fun e =>
          decide (e.generation < 1)
          || decide ((SystemIdentifier.mk e.profile e.generation none) ∈ gens)) := by
    rw [hrun]
  have heta : ∀ g ∈ gens, SystemIdentifier.mk g.profile g.generation none = g := by
    intro g hg
    rw [← hspec g hg]
  refine ⟨h1, ?_⟩
  intro p gn sp
  rw [h2, mem_entries_after, mem_filter_entries gens fs0.entries _ hgen]
  constructor
  · rintro (⟨hold, hbase⟩ | ⟨g, hgmem, heq | ⟨kv, hkv, heq⟩⟩)
    · exact ⟨hbase, Or.inr (Or.inr hold)⟩
    · rw [SystemIdentifier.mk.injEq] at heq
      obtain ⟨hp, hgn, hs⟩ := heq
      subst hp; subst hgn; subst hs
      exact ⟨by rw [heta g hgmem]; exact hgmem, Or.inl rfl⟩
    · rw [SystemIdentifier.mk.injEq] at heq
      obtain ⟨hp, hgn, hs⟩ := heq
      subst hp; subst hgn; subst hs
      exact ⟨by rw [heta g hgmem]; exact hgmem, Or.inr (Or.inl ⟨kv, hkv, rfl⟩)⟩
  · rintro ⟨hbase, hnone | ⟨kv, hkv, hxs⟩ | hold⟩
    · subst hnone
      exact Or.inr ⟨SystemIdentifier.mk p gn none, hbase, Or.inl rfl⟩
    · subst hxs
      exact Or.inr ⟨SystemIdentifier.mk p gn none, hbase, Or.inr ⟨kv, hkv, rfl⟩⟩
    · exact Or.inl ⟨hold, hbase⟩

/-- Witness for the amended C1 at a concrete input: the run succeeds and the
membership characterisation holds for the stale specialisation file, which
is retained solely because it already existed. -/
theorem c1_amended_witness :
    working_set cfgC envC = .ok [SystemIdentifier.mk none 1 none]
    ∧ (install_bootloader cfgC envC "/unset" fsA).1 = .ok ()
    ∧ (SystemIdentifier.mk none 1 (some "extra")
          ∈ (install_bootloader cfgC envC "/unset" fsA).2.entries
        ↔ (SystemIdentifier.mk none 1 none ∈ [SystemIdentifier.mk none 1 none]
            ∧ ((some "extra" : Option String) = none
               ∨ (∃ kv ∈ (bsGen 1).specialisations, (some "extra" : Option String) = some kv.1)
               ∨ SystemIdentifier.mk none 1 (some "extra") ∈ fsA.entries))) := by
  have h := c1_amended_entries_after_run cfgC envC "/unset" fsA
    [SystemIdentifier.mk none 1 none] (fun _ _ => bsGen 1)
    (by decide)
    (by intro g hg; rw [List.mem_singleton] at hg; subst hg; rfl)
    (by decide)
    (fun a b => rfl)
    (by decide)
  exact ⟨by decide, h.1, h.2 none 1 (some "extra")⟩

/-! ## Claim C2 -/

/-- **C2.**  If an enumerated generation's cached descriptor exists but does
not parse (all earlier generations in the working set resolving normally),
the whole run aborts with exit status 1 — raised inside the resolution loop
of `remove_old_entries`, which runs before any entry is written — so the
entries directory and the artifact directory are exactly as before the run,
and the boot mount is still synced by the `finally` block. -/
theorem c2_malformed_descriptor_aborts (cfg : Config) (env : Env)
    (syncRc : String → Int) (default_config : String) (fs0 : FS)
    (gens pre post : List SystemIdentifier) (g : SystemIdentifier)
    (hws : working_set cfg env = .ok gens)
    (hsplit : gens = pre ++ g :: post)
    (hpre : ∀ g' ∈ pre, ∃ bs, resolve_pure env g'.profile g'.generation = .ok bs)
    (hmal : env.descriptor g.profile g.generation = .cached (.error ())) :
    (pymain cfg env syncRc default_config fs0).result = .error (.sysExit 1)
    ∧ (pymain cfg env syncRc default_config fs0).fs.entries = fs0.entries
    ∧ (pymain cfg env syncRc default_config fs0).fs.nixosFiles = fs0.nixosFiles
    ∧ (pymain cfg env syncRc default_config fs0).syncedBoot = true := by
  have h := install_malformed cfg env default_config fs0 gens pre post g hws hsplit hpre hmal
  exact ⟨h.1, h.2.1, h.2.2, rfl⟩

/-- Witness for C2: generation 2 of the concrete environment has a cached
descriptor that fails to parse; the run aborts with exit 1, entries and
artifacts untouched, boot mount synced. -/
theorem c2_witness :
    (pymain cfgC envMal (fun _ => 0) "/unset" fsA).result = .error (.sysExit 1)
    ∧ (pymain cfgC envMal (fun _ => 0) "/unset" fsA).fs.entries = fsA.entries
    ∧ (pymain cfgC envMal (fun _ => 0) "/unset" fsA).syncedBoot = true := by
  have h := c2_malformed_descriptor_aborts cfgC envMal (fun _ => 0) "/unset" fsA
    [SystemIdentifier.mk none 1 none, SystemIdentifier.mk none 2 none]
    [SystemIdentifier.mk none 1 none] [] (SystemIdentifier.mk none 2 none)
    (by decide) rfl
    (by
      intro g' hg'
      rw [List.mem_singleton] at hg'
      subst hg'
      exact ⟨bsGen 1, rfl⟩)
    rfl
  exact ⟨h.1, h.2.1, h.2.2.2⟩

/-! ## Claim C3 -/

/-- **C3.**  The `finally` block of `main` syncs the boot mount on every
termination (and the EFI system partition exactly when it is a distinct
mount); the run's outcome is exactly `install_bootloader`'s outcome — it
does not depend on the `syncfs` return codes, whose failures are only
reported on the error stream. -/
theorem c3_sync_unconditional_and_nonfatal (cfg : Config) (env : Env)
    (syncRc syncRc' : String → Int) (default_config : String) (fs0 : FS) :
    (pymain cfg env syncRc default_config fs0).syncedBoot = true
    ∧ (pymain cfg env syncRc default_config fs0).syncedEsp
        = decide (cfg.bootMountPoint ≠ cfg.efiSysMountPoint)
    ∧ (pymain cfg env syncRc default_config fs0).result
        = (install_bootloader cfg env default_config fs0).1
    ∧ (pymain cfg env syncRc default_config fs0).result
        = (pymain cfg env syncRc' default_config fs0).result
    ∧ (pymain cfg env syncRc default_config fs0).syncErrors
        = (if syncRc cfg.bootMountPoint ≠ 0
           then ["could not sync " ++ cfg.bootMountPoint] else [])
          ++ (if cfg.bootMountPoint ≠ cfg.efiSysMountPoint then
                (if syncRc cfg.efiSysMountPoint ≠ 0
                 then ["could not sync " ++ cfg.efiSysMountPoint] else [])
              else []) :=
  ⟨rfl, rfl, rfl, rfl, rfl⟩

/-! ## Claim C4 -/

/-- **C4.**  If exactly one working-set generation's resolved `init`
directory equals the caller-supplied default configuration path, then after
a successful run the loader configuration file holds exactly the content
rendered for that generation — replaced wholesale (modelled as an atomic
overwrite of the whole file, the temp-file/fsync/rename of source lines
104-114) — and its `default` field is that generation's entry filename
(the newline-freedom hypotheses rule out degenerate configured values that
would break the line structure of the file). -/
theorem c4_default_selection (cfg : Config) (env : Env) (default_config : String)
    (fs0 : FS) (gens : List SystemIdentifier) (B : Option String → Int → BootSpec)
    (gstar : SystemIdentifier)
    (hws : working_set cfg env = .ok gens)
    (hres : ∀ g ∈ gens, resolve_pure env g.profile g.generation = .ok (B g.profile g.generation))
    (hos : ∀ g ∈ gens, env.osErrno g.profile g.generation = none)
    (hhook : ∀ a b, env.hookFails a b = false)
    (hmem : gstar ∈ gens)
    (huniq : ∀ g ∈ gens,
      ((pyDirname (B g.profile g.generation).init == default_config) = true ↔ g = gstar))
    (hnl1 : '\n' ∉ cfg.timeout.data)
    (hnl2 : '\n' ∉ (generation_conf_filename gstar.profile gstar.generation none).data) :
    (install_bootloader cfg env default_config fs0).1 = .ok ()
    ∧ (install_bootloader cfg env default_config fs0).2.loaderConf
        = some (loader_conf_content cfg gstar.profile gstar.generation none)
    ∧ loaderDefaultField (loader_conf_content cfg gstar.profile gstar.generation none)
        = some (generation_conf_filename gstar.profile gstar.generation none) := by
  have hspec := working_set_shape cfg env gens hws
  have hrun := install_run_ok cfg env default_config fs0 gens B hws hres hspec hos hhook
  have h2 : (install_bootloader cfg env default_config fs0).2.loaderConf
      = loader_after cfg default_config B gens
          (if env.installMode then none else fs0.loaderConf) := by
    rw [hrun]
  refine ⟨by rw [hrun], ?_, loaderDefaultField_content cfg _ _ none hnl1 hnl2⟩
  rw [h2]
  exact loader_after_unique cfg default_config B gens _ gstar hmem huniq

/-- Witness for C4: two generations, the supplied path matches only
generation 2; the loader configuration names generation 2's entry file. -/
theorem c4_witness :
    (install_bootloader cfgC envTwo "/nix/store/sys-2" fsA).1 = .ok ()
    ∧ (install_bootloader cfgC envTwo "/nix/store/sys-2" fsA).2.loaderConf
        = some (loader_conf_content cfgC none 2 none)
    ∧ loaderDefaultField (loader_conf_content cfgC none 2 none)
        = some "nixos-generation-2.conf" := by
  have h := c4_default_selection cfgC envTwo "/nix/store/sys-2" fsA
    [SystemIdentifier.mk none 1 none, SystemIdentifier.mk none 2 none]
    (fun _ g => bsGen g) (SystemIdentifier.mk none 2 none)
    (by decide)
    (by
      intro g hg
      rcases List.mem_cons.mp hg with rfl | hg'
      · rfl
      · rw [List.mem_singleton] at hg'
        subst hg'
        rfl)
    (by decide)
    (fun a b => rfl)
    (by decide)
    (by decide)
    (by decide)
    (by decide)
  exact ⟨h.1, h.2.1, by rw [h.2.2]; decide⟩

/-! ## Claim C5 -/

/-- **C5, counterexample.**  With a configured retention limit of 0 — the
value substituted when no limit is configured — the Python slice
`configurations[-0:]` is the whole list, so the enumerator returns all three
generations, not at most 0: the claim's universal quantification over
"every configured retention limit N" fails at N = 0. -/
theorem c5_counterexample_limit_zero :
    cfgLimit0.configurationLimit = 0
    ∧ get_generations cfgLimit0 envGen3 none
        = .ok [SystemIdentifier.mk none 1 none, SystemIdentifier.mk none 2 none,
               SystemIdentifier.mk none 3 none]
    ∧ ¬([SystemIdentifier.mk none 1 none, SystemIdentifier.mk none 2 none,
         SystemIdentifier.mk none 3 none].length ≤ cfgLimit0.configurationLimit.toNat) := by
  decide

/-- **C5 (amended).**  For every configured retention limit N ≥ 1, the
enumerator returns exactly the last `min N total` elements of the ordered
list reported by the generation store for the requested profile — a suffix,
so the N most recent — wrapped as identifiers of that profile with no
specialisation; the limit applies per call, i.e. independently per profile.
(For N ≤ 0 the list is not truncated from the end: N = 0 keeps everything,
the only case arising in practice, where 0 encodes "no limit".) -/
theorem c5_amended_retention (cfg : Config) (env : Env) (profile : Option String)
    (nums : List Int)
    (hparse : parse_generation_lines (env.genStdout profile) = .ok nums)
    (hlim : 1 ≤ cfg.configurationLimit) :
    get_generations cfg env profile
      = .ok (pySliceLast cfg.configurationLimit
          (nums.map fun n => SystemIdentifier.mk profile n none))
    ∧ (pySliceLast cfg.configurationLimit
        (nums.map fun n => SystemIdentifier.mk profile n none)).length
        = min cfg.configurationLimit.toNat nums.length
    ∧ (pySliceLast cfg.configurationLimit
        (nums.map fun n => SystemIdentifier.mk profile n none))
        <:+ (nums.map fun n => SystemIdentifier.mk profile n none)
    ∧ ∀ e ∈ pySliceLast cfg.configurationLimit
        (nums.map fun n => SystemIdentifier.mk profile n none),
        e.profile = profile ∧ e.specialisation = none := by
  refine ⟨?_, ?_, pySliceLast_suffix _ _ hlim, ?_⟩
  · unfold get_generations
    rw [hparse]
    rfl
  · rw [pySliceLast_length _ _ hlim, List.length_map]
  · intro e he
    obtain ⟨n, _, rfl⟩ := List.mem_map.mp (pySliceLast_subset _ _ he)
    exact ⟨rfl, rfl⟩

/-- Witness for the amended C5: three generations, limit 10. -/
theorem c5_witness :
    parse_generation_lines (envGen3.genStdout none) = .ok [1, 2, 3]
    ∧ get_generations cfgC envGen3 none
        = .ok (pySliceLast cfgC.configurationLimit
            ([1, 2, 3].map fun n => SystemIdentifier.mk none n none))
    ∧ (pySliceLast cfgC.configurationLimit
        ([1, 2, 3].map fun n => SystemIdentifier.mk none n none)).length
        = min cfgC.configurationLimit.toNat 3 := by
  have h := c5_amended_retention cfgC envGen3 none [1, 2, 3] (by decide) (by decide)
  exact ⟨by decide, h.1, h.2.1⟩

/-! ## Claim C6 -/

/-- Supporting fact for C6: a path produced by the artifact glob
(`f"{BOOT_MOUNT_POINT}/{NIXOS_DIR}/*"`, which prefixes the boot mount point
and a slash) can never equal a `known_paths` element (which
`copy_from_file` returns as `NIXOS_DIR ++ "/" ++ name`): the two strings
contain different numbers of slashes whenever the final name components are
slash-free.  Hence the `path not in known_paths` test of source line 263 is
always true and the stale-artifact pass deletes every file. -/
theorem glob_path_never_in_known_paths (boot nixos n d : String)
    (hn : '/' ∉ n.data) (hd : '/' ∉ d.data) :
    boot ++ "/" ++ nixos ++ "/" ++ n ≠ nixos ++ "/" ++ d := by
  intro h
  have hdata := congrArg String.data h
  simp only [String.data_append] at hdata
  have hcount := congrArg (fun l => List.count '/' l) hdata
  simp only [List.count_append] at hcount
  have hn0 : List.count '/' n.data = 0 := List.count_eq_zero.mpr hn
  have hd0 : List.count '/' d.data = 0 := List.count_eq_zero.mpr hd
  have hs : List.count '/' ("/".data) = 1 := by decide
  rw [hn0, hd0, hs] at hcount
  omega

/-- **C6.**  Evaluation at the failing input: the working set is
generation 1, whose kernel materialises to the artifact basename
`kernel-1-kernel.efi`; that very file is present in the artifact
directory, it is recorded in `known_paths` (as `/EFI/nixos/...`, without
the boot-mount prefix carried by the glob paths), and the stale-artifact
pass of `remove_old_entries` nevertheless unlinks it — contradicting the
claim that referenced artifacts are not deleted.  Directories are indeed
left untouched. -/
theorem c6_referenced_artifact_deleted :
    destNameOf envC (bsGen 1).kernel = "kernel-1-kernel.efi"
    ∧ "kernel-1-kernel.efi" ∈ fsB.nixosFiles
    ∧ (collect_known_paths cfgC envC [SystemIdentifier.mk none 1 none] fsB).1
        = .ok ["/EFI/nixos/kernel-1-kernel.efi", "/EFI/nixos/initrd-1-initrd.efi"]
    ∧ (remove_old_entries cfgC envC [SystemIdentifier.mk none 1 none] fsB).1 = .ok ()
    ∧ (remove_old_entries cfgC envC [SystemIdentifier.mk none 1 none] fsB).2.nixosFiles = []
    ∧ (remove_old_entries cfgC envC [SystemIdentifier.mk none 1 none] fsB).2.nixosDirs
        = fsB.nixosDirs := by
  decide

/-! ## Claim C7 -/

/-- **C7.**  When the bootspec declares an initrd-secrets hook and the hook
invocation fails: with `current = true` the run aborts via `sys.exit(1)`
before the entry file is written; with `current = false` only two warning
lines go to stderr, the entry file is still written, and `write_entry`
returns successfully. -/
theorem c7_hook_failure_fatal_only_for_default (cfg : Config) (env : Env)
    (p : Option String) (gn : Int) (mid : Option String) (bs : BootSpec)
    (hook : String) (fs : FS)
    (hsec : bs.initrdSecrets = some hook)
    (hfail : ∀ a b, env.hookFails a b = true) :
    (write_entry cfg env p gn none mid bs true fs).1 = .error (.sysExit 1)
    ∧ (write_entry cfg env p gn none mid bs true fs).2.entries = fs.entries
    ∧ (write_entry cfg env p gn none mid bs false fs).1 = .ok ()
    ∧ SystemIdentifier.mk p gn none
        ∈ (write_entry cfg env p gn none mid bs false fs).2.entries
    ∧ (write_entry cfg env p gn none mid bs false fs).2.log
        = fs.log ++ ["warning: failed to create initrd secrets for Configuration "
            ++ toString gn ++ ", an older generation",
          "note: this is normal after having removed or renamed a file in boot.initrd.secrets"] := by
  cases hdt : bs.devicetree with
  | none =>
      refine ⟨?_, ?_, ?_, ?_, ?_⟩ <;>
        simp only [write_entry, resolve_spec, hsec, hfail, hdt, bind_run, pure_run,
          modifyFS_run, throwF_run, logLine, copy_from_file, if_true, mem_insertOnce] <;>
        first
        | rfl
        | simp [bind_run, pure_run, modifyFS_run, throwF_run, logLine,
            copy_from_file, mem_insertOnce]
  | some dt =>
      refine ⟨?_, ?_, ?_, ?_, ?_⟩ <;>
        simp only [write_entry, resolve_spec, hsec, hfail, hdt, bind_run, pure_run,
          modifyFS_run, throwF_run, logLine, copy_from_file, if_true, mem_insertOnce] <;>
        first
        | rfl
        | simp [bind_run, pure_run, modifyFS_run, throwF_run, logLine,
            copy_from_file, mem_insertOnce]

/-- Witness for C7, at a concrete bootspec with a hook and an
always-failing hook runner. -/
theorem c7_witness :
    (write_entry cfgC envHook none 9 none none bsSec true fsA).1 = .error (.sysExit 1)
    ∧ (write_entry cfgC envHook none 9 none none bsSec true fsA).2.entries = fsA.entries
    ∧ (write_entry cfgC envHook none 9 none none bsSec false fsA).1 = .ok ()
    ∧ SystemIdentifier.mk none 9 none
        ∈ (write_entry cfgC envHook none 9 none none bsSec false fsA).2.entries := by
  have h := c7_hook_failure_fatal_only_for_default cfgC envHook none 9 none bsSec
    "/nix/store/secrets-hook" fsA rfl (fun a b => rfl)
  exact ⟨h.1, h.2.1, h.2.2.1, h.2.2.2.1⟩

/-! ## Claim C8 -/

/-- **C8.**  If processing a generation raises an `OSError`: with
`errno == EINVAL` a diagnostic is logged and the loop continues with the
remaining generations from the same filesystem state; with any other errno
the whole loop aborts immediately with that error, the remaining
generations unprocessed. -/
theorem c8_einval_skips_other_errno_aborts (cfg : Config) (env : Env)
    (default_config : String) (mid : Option String) (g : SystemIdentifier)
    (rest : List SystemIdentifier) (fs : FS) (e : Int)
    (hos : env.osErrno g.profile g.generation = some e) :
    (e = EINVAL →
      process_gens cfg env default_config mid (g :: rest) fs
        = process_gens cfg env default_config mid rest
            { fs with log := fs.log ++ [skip_msg g] })
    ∧ (e ≠ EINVAL →
      process_gens cfg env default_config mid (g :: rest) fs
        = (.error (.osError e), fs)) := by
  constructor
  · intro he
    subst he
    simp only [process_gens, bind_run, process_gen_caught, hos, if_pos rfl, if_true]
  · intro hne
    simp only [process_gens, bind_run, process_gen_caught, hos, if_neg hne]

/-- Witness for C8: `EINVAL` while processing generation 1 skips it (with a
diagnostic) and the loop continues with the rest. -/
theorem c8_witness :
    envEinval.osErrno none 1 = some EINVAL
    ∧ process_gens cfgC envEinval "/unset" none
        [SystemIdentifier.mk none 1 none, SystemIdentifier.mk none 2 none] fsA
      = process_gens cfgC envEinval "/unset" none [SystemIdentifier.mk none 2 none]
          { fsA with log := fsA.log ++ [skip_msg (SystemIdentifier.mk none 1 none)] } := by
  have h := c8_einval_skips_other_errno_aborts cfgC envEinval "/unset" none
    (SystemIdentifier.mk none 1 none) [SystemIdentifier.mk none 2 none] fsA EINVAL rfl
  exact ⟨rfl, h.1 rfl⟩

/-! ## Claim C9 -/

/-- **C9, counterexample.**  A document with the required
`org.nixos.bootspec.v1` key present but the `org.nixos.specialisation.v1`
key absent does not resolve with specialisations defaulting to none:
line 143 indexes the specialisation key unconditionally and raises
`KeyError`. -/
theorem c9_counterexample_missing_spec_key :
    bootspec_from_json (BootJson.mk (some (v1Gen 1)) none none)
      = .error Fatal.keyError := rfl

/-- **C9 (amended).**  For a document whose `org.nixos.bootspec.v1` *and*
`org.nixos.specialisation.v1` keys are present (the latter being required
by the code, contrary to the claim), resolution succeeds even when
`org.nixos.systemd-boot` is absent, with `sortKey` defaulting to the fixed
constant `"nixos"` and `devicetree` defaulting to none; when the
specialisation key is absent, resolution fails with `KeyError`. -/
theorem c9_amended_optional_keys (f : V1Fields) (sp : BootJsonMap)
    (specs : List (String × BootSpec))
    (hsp : bootspec_list sp = .ok specs) :
    bootspec_from_json (BootJson.mk (some f) (some sp) none)
      = .ok (BootSpec.mk f.init f.initrd f.kernel f.kernelParams f.label f.system
          f.toplevel specs "nixos" none f.initrdSecrets)
    ∧ bootspec_from_json (BootJson.mk (some f) none none) = .error Fatal.keyError := by
  constructor
  · simp only [bootspec_from_json, hsp]
    rfl
  · rfl

/-- Witness for the amended C9 at a concrete document. -/
theorem c9_witness :
    bootspec_list BootJsonMap.nil = .ok []
    ∧ bootspec_from_json (BootJson.mk (some (v1Gen 1)) (some BootJsonMap.nil) none)
        = .ok (BootSpec.mk (v1Gen 1).init (v1Gen 1).initrd (v1Gen 1).kernel
            (v1Gen 1).kernelParams (v1Gen 1).label (v1Gen 1).system
            (v1Gen 1).toplevel [] "nixos" none (v1Gen 1).initrdSecrets) := by
  have h := c9_amended_optional_keys (v1Gen 1) BootJsonMap.nil [] rfl
  exact ⟨rfl, h.1⟩

/-! ## Claim C10 -/

/-- **C10.**  Processing one generation writes entry files only for the
first-level specialisation names of its bootspec: a specialisation entry
`(p, gn, some name)` is present after the write phase iff `name` is a
first-level key of the specialisation mapping or the file already existed —
regardless of any deeper nesting inside the recursive bootspec value. -/
theorem c10_only_first_level_specialisations (cfg : Config) (env : Env)
    (default_config : String) (mid : Option String) (p : Option String) (gn : Int)
    (bs : BootSpec) (fs : FS)
    (hres : resolve_pure env p gn = .ok bs)
    (hhook : ∀ a b, env.hookFails a b = false) :
    (process_generation cfg env default_config mid (SystemIdentifier.mk p gn none) fs).1
      = .ok ()
    ∧ ∀ name : String,
        SystemIdentifier.mk p gn (some name)
            ∈ (process_generation cfg env default_config mid
                (SystemIdentifier.mk p gn none) fs).2.entries
          ↔ (name ∈ bs.specialisations.map Prod.fst
             ∨ SystemIdentifier.mk p gn (some name) ∈ fs.entries) := by
  have h := process_generation_ok cfg env default_config mid p gn bs fs hres hhook
  have h1 : (process_generation cfg env default_config mid
      (SystemIdentifier.mk p gn none) fs).1 = .ok () := by rw [h]
  have h2 : (process_generation cfg env default_config mid
      (SystemIdentifier.mk p gn none) fs).2.entries
      = spec_entry_fold p gn bs.specialisations
          (insertOnce (SystemIdentifier.mk p gn none) fs.entries) := by rw [h]
  refine ⟨h1, ?_⟩
  intro name
  rw [h2, mem_spec_entry_fold, mem_insertOnce]
  constructor
  · rintro ((heq | hmem) | ⟨kv, hkv, heq⟩)
    · exact absurd heq (by simp)
    · exact Or.inr hmem
    · rw [SystemIdentifier.mk.injEq] at heq
      obtain ⟨_, _, hs⟩ := heq
      obtain rfl := Option.some.inj hs
      exact Or.inl (List.mem_map.mpr ⟨kv, hkv, rfl⟩)
  · rintro (hname | hold)
    · obtain ⟨kv, hkv, rfl⟩ := List.mem_map.mp hname
      exact Or.inr ⟨kv, hkv, rfl⟩
    · exact Or.inl (Or.inr hold)

/-- Witness for C10: a bootspec whose specialisation `a` carries a nested
specialisation `b`.  The entry for `a` is written; no entry for `b`
exists. -/
theorem c10_witness :
    resolve_pure envNested none 7 = .ok bsNested
    ∧ (process_generation cfgC envNested "/unset" none
        (SystemIdentifier.mk none 7 none) fsA).1 = .ok ()
    ∧ (SystemIdentifier.mk none 7 (some "b")
          ∈ (process_generation cfgC envNested "/unset" none
              (SystemIdentifier.mk none 7 none) fsA).2.entries
        ↔ ("b" ∈ bsNested.specialisations.map Prod.fst
           ∨ SystemIdentifier.mk none 7 (some "b") ∈ fsA.entries))
    ∧ SystemIdentifier.mk none 7 (some "b")
        ∉ (process_generation cfgC envNested "/unset" none
            (SystemIdentifier.mk none 7 none) fsA).2.entries
    ∧ SystemIdentifier.mk none 7 (some "a")
        ∈ (process_generation cfgC envNested "/unset" none
            (SystemIdentifier.mk none 7 none) fsA).2.entries := by
  have h := c10_only_first_level_specialisations cfgC envNested "/unset" none none 7
    bsNested fsA rfl (fun a b => rfl)
  exact ⟨rfl, h.1, h.2 "b", by decide, by decide⟩
